import Mathlib

/-!
Verification of the Phase V Todo Chatbot task pipeline.

Shallow embedding of:
* `src/services/backend/src/models/task.py` (Task entity),
* `src/services/backend/src/models/schemas.py` (request schemas),
* `src/services/backend/src/services/memory_store.py` (in-memory store),
* `src/services/backend/src/services/task_service.py` (TaskService),
* `src/services/recurring-task-service/src/handlers.py` and `main.py`
  (recurrence calculator and consumer),
* `src/services/websocket-service/src/handlers.py` (ConnectionManager).

Conventions of the embedding:
* Python `datetime` values in the backend service are abstracted as an
  integer timeline `Timestamp := Int`; `datetime.utcnow()` becomes an
  explicit `now` argument.
* The recurring-task service needs calendar arithmetic, so there
  datetimes are a civil `DateTime` record (year/month/day + seconds of
  day); `timedelta(days=n)` is `addDays` (n-fold calendar successor) and
  `relativedelta(months=1)` is `addOneMonth` (day-of-month clamped).
* The Python dict `_store` is an association list with unique keys;
  `_store[key] = value` replaces in place or appends (`save_state`).
* Pydantic round-tripping (`model_dump` / `model_validate`) is treated
  as the identity, so the store holds `Task` values directly.
* `uuid4()` is abstracted as an explicit fresh-id argument `tid : Nat`.
* Operations return, besides their result and the new store, a trace of
  side effects (`Effect`): store writes, topic publishes, reminder job
  scheduling/cancellation, in source order.  The boolean returned by
  `publish_event` is modelled by an oracle `pub : String → Bool` whose
  value the service code discards, exactly as the Python code does.
-/

namespace Todo

/-- Abstract timeline for the backend service (a Python `datetime`). -/
abbrev Timestamp := Int

/-- `TaskStatus` from `models/task.py`. -/
inductive TaskStatus
  | pending
  | completed
deriving DecidableEq, Repr

/-- `Priority` from `models/task.py`. -/
inductive Priority
  | high
  | medium
  | low
deriving DecidableEq, Repr

/-- `RecurrencePattern` from `models/task.py`. -/
inductive RecurrencePattern
  | daily
  | weekly
  | monthly
deriving DecidableEq, Repr

/-- The `Task` pydantic model from `models/task.py`. -/
structure Task where
  id : Nat
  user_id : String
  title : String
  description : Option String
  status : TaskStatus
  priority : Priority
  tags : List String
  due_at : Option Timestamp
  remind_at : Option Timestamp
  recurrence_pattern : Option RecurrencePattern
  created_at : Timestamp
  updated_at : Timestamp
  completed_at : Option Timestamp
deriving DecidableEq, Repr

/-- `Task.get_state_key`: `task:{user_id}:{task_id}`. -/
def get_state_key (t : Task) : String :=
  "task:" ++ t.user_id ++ ":" ++ toString t.id

/-- `Task.mark_completed`: sets status, completed_at and updated_at. -/
def mark_completed (t : Task) (now : Timestamp) : Task :=
  { t with status := .completed, completed_at := some now, updated_at := now }

/-- `TaskCreateRequest` from `models/schemas.py`. -/
structure TaskCreateRequest where
  title : String
  description : Option String := none
  priority : Priority := .medium
  tags : List String := []
  due_at : Option Timestamp := none
  remind_at : Option Timestamp := none
  recurrence_pattern : Option RecurrencePattern := none
deriving DecidableEq, Repr

/-- `TaskUpdateRequest` from `models/schemas.py`, with pydantic
field-presence made explicit: `none` = field absent from the request
body (excluded by `exclude_unset`), `some none` = field explicitly set
to null, `some (some v)` = field set to `v`. -/
structure TaskUpdateRequest where
  title : Option (Option String) := none
  description : Option (Option String) := none
  priority : Option (Option Priority) := none
  tags : Option (Option (List String)) := none
  due_at : Option (Option Timestamp) := none
  remind_at : Option (Option Timestamp) := none
  recurrence_pattern : Option (Option RecurrencePattern) := none
  status : Option (Option TaskStatus) := none
deriving DecidableEq, Repr

/-- `TaskFilterParams` from `models/schemas.py` (defaults as in source). -/
structure TaskFilterParams where
  status : Option TaskStatus := none
  priority : Option Priority := none
  tags : Option (List String) := none
  due_before : Option Timestamp := none
  due_after : Option Timestamp := none
  search : Option String := none
  sort_by : Option String := some "created_at"
  sort_order : Option String := some "desc"
  page : Nat := 1
  page_size : Nat := 20
deriving DecidableEq, Repr

/-- One clause of the Dapr state query filter built by `list_tasks`. -/
inductive QueryClause
  | eqUser (uid : String)
  | eqStatus (s : TaskStatus)
  | eqPriority (p : Priority)
  | ltDue (t : Timestamp)
  | gtDue (t : Timestamp)
deriving DecidableEq, Repr

/-- The `{"AND": [...]}` filter dict built by `list_tasks`. -/
structure QueryFilter where
  andClauses : List QueryClause
deriving DecidableEq, Repr

/-- The in-memory `_store` dict (`memory_store.py`): association list
with unique keys, in insertion order. -/
abbrev Store := List (String × Task)

/-- `MemoryStore.save_state`: `_store[key] = value; return True`.
Dict assignment replaces an existing key in place, else appends. -/
def save_state (key : String) (value : Task) : Store → Store × Bool
  | [] => ([(key, value)], true)
  | (k, v) :: rest =>
    if k = key then ((key, value) :: rest, true)
    else
      let r := save_state key value rest
      ((k, v) :: r.1, r.2)

/-- `MemoryStore.get_state`: `_store.get(key)`. -/
def get_state (key : String) : Store → Option Task
  | [] => none
  | (k, v) :: rest => if k = key then some v else get_state key rest

/-- `MemoryStore.delete_state`: `_store.pop(key, None); return True`. -/
def delete_state (key : String) (store : Store) : Store × Bool :=
  (store.filter (fun kv => decide (kv.1 ≠ key)), true)

/-- `MemoryStore.query_state`: NOTE the source ignores `filter_query`,
`sort` and `page` entirely and returns every entry whose key starts
with `"task:"`. -/
def query_state (_filter_query : QueryFilter) (_sort : List (String × String))
    (_page : Option Nat) (store : Store) : List (String × Task) :=
  store.filter (fun kv => decide ("task:".toList <+: kv.1.toList))

/-- Side effects recorded by TaskService operations, in source order. -/
inductive Effect
  | save (key : String)
  | deleteKey (key : String)
  | publish (topic : String)
  | scheduleJob (jobName : String)
  | cancelJob (jobName : String)
deriving DecidableEq, Repr

def TOPIC_TASK_EVENTS : String := "task-events"

def TOPIC_TASK_UPDATES : String := "task-updates"

/-- The publish topics occurring in a trace, in order. -/
def publishesOf (tr : List Effect) : List String :=
  tr.filterMap fun e =>
    match e with
    | .publish t => some t
    | _ => none

/-- Reminder job name `reminder:{user_id}:{task_id}`. -/
def reminder_job_name (t : Task) : String :=
  "reminder:" ++ t.user_id ++ ":" ++ toString t.id

/-- The `Task(...)` construction inside `TaskService.create_task`. -/
def mkTask (uid : String) (req : TaskCreateRequest) (tid : Nat)
    (now : Timestamp) : Task :=
  { id := tid, user_id := uid, title := req.title,
    description := req.description, status := .pending,
    priority := req.priority, tags := req.tags, due_at := req.due_at,
    remind_at := req.remind_at,
    recurrence_pattern := req.recurrence_pattern, created_at := now,
    updated_at := now, completed_at := none }

/-- `TaskService.create_task`.  `pub` is the publish-result oracle whose
boolean result the source discards. -/
def create_task (uid : String) (req : TaskCreateRequest) (tid : Nat)
    (now : Timestamp) (store : Store) (pub : String → Bool) :
    Except String Task × Store × List Effect :=
  let task := mkTask uid req tid now
  let r := save_state (get_state_key task) task store
  let store1 := r.1
  let success := r.2
  if success = false then
    (.error "Failed to save task", store1, [.save (get_state_key task)])
  else
    let _ := pub TOPIC_TASK_EVENTS
    let _ := pub TOPIC_TASK_UPDATES
    let sched : List Effect :=
      if task.remind_at.isSome then [.scheduleJob (reminder_job_name task)]
      else []
    (.ok task, store1,
      [.save (get_state_key task), .publish TOPIC_TASK_EVENTS,
        .publish TOPIC_TASK_UPDATES] ++ sched)

/-- `TaskService.get_task`: key `task:{user_id}:{task_id}`, then
`get_state`. -/
def get_task (uid : String) (tid : Nat) (store : Store) : Option Task :=
  get_state ("task:" ++ uid ++ ":" ++ toString tid) store

/-- The update loop of `TaskService.update_task` for a field whose
target is non-optional: `if value is not None: setattr(task, field,
value)` — an absent field or an explicit null both leave it unchanged. -/
def applySet {α : Type} (f : Option (Option α)) (old : α) : α :=
  match f with
  | some (some v) => v
  | _ => old

/-- Same update loop for a field whose target is optional: an explicit
null is skipped by `if value is not None`, so it does NOT clear. -/
def applySetOpt {α : Type} (f : Option (Option α)) (old : Option α) :
    Option α :=
  match f with
  | some (some v) => some v
  | _ => old

/-- The `for field, value in update_data.items()` loop of
`TaskService.update_task` applied to all eight updatable fields. -/
def applyUpdate (t : Task) (req : TaskUpdateRequest) : Task :=
  { t with
    title := applySet req.title t.title,
    description := applySetOpt req.description t.description,
    priority := applySet req.priority t.priority,
    tags := applySet req.tags t.tags,
    due_at := applySetOpt req.due_at t.due_at,
    remind_at := applySetOpt req.remind_at t.remind_at,
    recurrence_pattern :=
      applySetOpt req.recurrence_pattern t.recurrence_pattern,
    status := applySet req.status t.status }

/-- `TaskService.update_task`. -/
def update_task (uid : String) (tid : Nat) (req : TaskUpdateRequest)
    (now : Timestamp) (store : Store) (pub : String → Bool) :
    Except String (Option Task) × Store × List Effect :=
  match get_task uid tid store with
  | none => (.ok none, store, [])
  | some task0 =>
    let task1 := applyUpdate task0 req
    let task := { task1 with updated_at := now }
    let r := save_state (get_state_key task) task store
    let store1 := r.1
    let success := r.2
    if success = false then
      (.error "Failed to update task", store1, [.save (get_state_key task)])
    else
      let _ := pub TOPIC_TASK_EVENTS
      let _ := pub TOPIC_TASK_UPDATES
      let reminderFx : List Effect :=
        if req.remind_at.isSome || req.due_at.isSome then
          .cancelJob (reminder_job_name task) ::
            (if task.remind_at.isSome then
              [.scheduleJob (reminder_job_name task)]
            else [])
        else []
      (.ok (some task), store1,
        [.save (get_state_key task), .publish TOPIC_TASK_EVENTS,
          .publish TOPIC_TASK_UPDATES] ++ reminderFx)

/-- `TaskService.delete_task`. -/
def delete_task (uid : String) (tid : Nat) (now : Timestamp)
    (store : Store) (pub : String → Bool) :
    Except String Bool × Store × List Effect :=
  let _ := now
  match get_task uid tid store with
  | none => (.ok false, store, [])
  | some task =>
    let key := "task:" ++ uid ++ ":" ++ toString tid
    let r := delete_state key store
    let store1 := r.1
    let success := r.2
    if success = false then
      (.error "Failed to delete task", store1, [.deleteKey key])
    else
      let _ := pub TOPIC_TASK_EVENTS
      let _ := pub TOPIC_TASK_UPDATES
      (.ok true, store1,
        [.deleteKey key, .publish TOPIC_TASK_EVENTS,
          .publish TOPIC_TASK_UPDATES, .cancelJob (reminder_job_name task)])

/-- `TaskService.complete_task`. -/
def complete_task (uid : String) (tid : Nat) (now : Timestamp)
    (store : Store) (pub : String → Bool) :
    Except String (Option Task) × Store × List Effect :=
  match get_task uid tid store with
  | none => (.ok none, store, [])
  | some task0 =>
    let task := mark_completed task0 now
    let r := save_state (get_state_key task) task store
    let store1 := r.1
    let success := r.2
    if success = false then
      (.error "Failed to complete task", store1,
        [.save (get_state_key task)])
    else
      let _ := pub TOPIC_TASK_EVENTS
      let _ := pub TOPIC_TASK_UPDATES
      (.ok (some task), store1,
        [.save (get_state_key task), .publish TOPIC_TASK_EVENTS,
          .publish TOPIC_TASK_UPDATES, .cancelJob (reminder_job_name task)])

/-- `TaskService.add_tags`.  Python computes
`list(set(task.tags).union(set(tags)))`, whose order is unspecified; we
model the union as an order-preserving deduplication.  Note the source
ignores the result of `save_state` here (no RuntimeError branch). -/
def add_tags (uid : String) (tid : Nat) (tags : List String)
    (now : Timestamp) (store : Store) (pub : String → Bool) :
    Option Task × Store × List Effect :=
  match get_task uid tid store with
  | none => (none, store, [])
  | some task0 =>
    let task :=
      { task0 with
        tags := (task0.tags ++ tags).dedup,
        updated_at := now }
    let r := save_state (get_state_key task) task store
    let _ := pub TOPIC_TASK_EVENTS
    let _ := pub TOPIC_TASK_UPDATES
    (some task, r.1,
      [.save (get_state_key task), .publish TOPIC_TASK_EVENTS,
        .publish TOPIC_TASK_UPDATES])

/-- `TaskService.remove_tags`: `[t for t in task.tags if t not in tags]`. -/
def remove_tags (uid : String) (tid : Nat) (tags : List String)
    (now : Timestamp) (store : Store) (pub : String → Bool) :
    Option Task × Store × List Effect :=
  match get_task uid tid store with
  | none => (none, store, [])
  | some task0 =>
    let task :=
      { task0 with
        tags := task0.tags.filter (fun t => decide (t ∉ tags)),
        updated_at := now }
    let r := save_state (get_state_key task) task store
    let _ := pub TOPIC_TASK_EVENTS
    let _ := pub TOPIC_TASK_UPDATES
    (some task, r.1,
      [.save (get_state_key task), .publish TOPIC_TASK_EVENTS,
        .publish TOPIC_TASK_UPDATES])

/-- The `query_filter` dict built by `TaskService.list_tasks`. -/
def build_query_filter (uid : String) (f : TaskFilterParams) : QueryFilter :=
  { andClauses :=
      [QueryClause.eqUser uid] ++
        (match f.status with
         | some s => [QueryClause.eqStatus s]
         | none => []) ++
        (match f.priority with
         | some p => [QueryClause.eqPriority p]
         | none => []) ++
        (match f.due_before with
         | some t => [QueryClause.ltDue t]
         | none => []) ++
        (match f.due_after with
         | some t => [QueryClause.gtDue t]
         | none => []) }

/-- The client-side text-search filter in `list_tasks` (a task survives
when the lowered query is a substring of the lowered title, or of the
lowered description when one is present).  Python `if filters.search:`
treats an empty string as no filter. -/
def matchesSearch (q : Option String) (t : Task) : Bool :=
  match q with
  | none => true
  | some s =>
    if s.isEmpty then true
    else
      let sl := s.toList.map Char.toLower
      decide (sl <:+: t.title.toList.map Char.toLower) ||
        (match t.description with
         | some d => decide (sl <:+: d.toList.map Char.toLower)
         | none => false)

/-- The client-side tag filter in `list_tasks` (any-match).  Python
`if filters.tags:` treats an empty list as no filter. -/
def matchesTags (ft : Option (List String)) (t : Task) : Bool :=
  match ft with
  | none => true
  | some fts =>
    if fts.isEmpty then true
    else fts.any (fun tag => t.tags.contains tag)

/-- `TaskService.list_tasks`.  It builds `query_filter` and `sort` and
passes them to `query_state` (which, in the in-memory store, ignores
them), then applies the search and tag filters client side, counts the
total before pagination, and slices `[start:end]`. -/
def list_tasks (uid : String) (filtersOpt : Option TaskFilterParams)
    (store : Store) : List Task × Nat :=
  let filters := filtersOpt.getD {}
  let qf := build_query_filter uid filters
  let sort : List (String × String) :=
    match filters.sort_by with
    | some k => [(k, (filters.sort_order.getD "DESC").toUpper)]
    | none => []
  let results := query_state qf sort (some filters.page_size) store
  let tasks :=
    (results.map Prod.snd).filter fun t =>
      matchesSearch filters.search t && matchesTags filters.tags t
  let total := tasks.length
  let start := (filters.page - 1) * filters.page_size
  ((tasks.drop start).take filters.page_size, total)

/-! ## Recurring-task service (`recurring-task-service/src/handlers.py`)

Calendar datetimes.  The service parses ISO strings into Python
`datetime` values; we model the parsed value directly as a civil date
plus seconds-of-day. -/

/-- A parsed UTC datetime: civil date plus seconds since midnight. -/
structure DateTime where
  year : Nat
  month : Nat
  day : Nat
  sec : Nat
deriving DecidableEq, Repr

/-- Gregorian leap year (as in Python's `calendar`/`datetime`). -/
def isLeap (y : Nat) : Bool :=
  (y % 4 = 0 && decide (y % 100 ≠ 0)) || y % 400 = 0

/-- Number of days in a month of a given year. -/
def daysInMonth (y m : Nat) : Nat :=
  if m = 2 then (if isLeap y then 29 else 28)
  else if m = 4 ∨ m = 6 ∨ m = 9 ∨ m = 11 then 30
  else 31

/-- Well-formedness of a `DateTime` (what `datetime` guarantees). -/
def ValidDT (d : DateTime) : Prop :=
  1 ≤ d.month ∧ d.month ≤ 12 ∧ 1 ≤ d.day ∧
    d.day ≤ daysInMonth d.year d.month ∧ d.sec < 86400

instance (d : DateTime) : Decidable (ValidDT d) := by
  unfold ValidDT; infer_instance

/-- Calendar successor day, time of day unchanged (UTC, no DST): the
effect of `timedelta(days=1)` on the civil reading of a datetime. -/
def nextDay (d : DateTime) : DateTime :=
  if d.day < daysInMonth d.year d.month then { d with day := d.day + 1 }
  else if d.month < 12 then { d with month := d.month + 1, day := 1 }
  else { year := d.year + 1, month := 1, day := 1, sec := d.sec }

/-- `base + timedelta(days=n)`. -/
def addDays : DateTime → Nat → DateTime
  | d, 0 => d
  | d, n + 1 => addDays (nextDay d) n

/-- `base + relativedelta(months=1)`: same day of the next month, with
the day of month clamped to the target month's length (dateutil's
overflow policy). -/
def addOneMonth (d : DateTime) : DateTime :=
  if d.month < 12 then
    { d with
      month := d.month + 1,
      day := min d.day (daysInMonth d.year (d.month + 1)) }
  else
    { year := d.year + 1, month := 1,
      day := min d.day (daysInMonth (d.year + 1) 1), sec := d.sec }

/-- Days since 0000-03-01 of a civil date (Hinnant's civil-from-days
inverse), used to linearize datetimes for `timedelta` subtraction. -/
def daysFromCivil (y m d : Nat) : Nat :=
  let y' := if m ≤ 2 then y - 1 else y
  let era := y' / 400
  let yoe := y' % 400
  let mp := if m > 2 then m - 3 else m + 9
  let doy := (153 * mp + 2) / 5 + d - 1
  let doe := yoe * 365 + yoe / 4 - yoe / 100 + doy
  era * 146097 + doe

/-- Civil date of a day count since 0000-03-01. -/
def civilFromDays (z : Nat) : Nat × Nat × Nat :=
  let era := z / 146097
  let doe := z % 146097
  let yoe := (doe - doe / 1460 + doe / 36524 - doe / 146097) / 365
  let y := yoe + era * 400
  let doy := doe - (365 * yoe + yoe / 4 - yoe / 100)
  let mp := (5 * doy + 2) / 153
  let d := doy - (153 * mp + 2) / 5 + 1
  let m := if mp < 10 then mp + 3 else mp - 9
  (if m ≤ 2 then y + 1 else y, m, d)

/-- Seconds on the linear timeline (for datetime subtraction). -/
def dtToSecI (d : DateTime) : Int :=
  (daysFromCivil d.year d.month d.day : Int) * 86400 + (d.sec : Int)

/-- Datetime of a linear-timeline second count. -/
def dtOfSecI (n : Int) : DateTime :=
  let t := n.toNat
  let c := civilFromDays (t / 86400)
  { year := c.1, month := c.2.1, day := c.2.2, sec := t % 86400 }

/-- `calculate_next_due` from `recurring-task-service/src/handlers.py`.
`current_due` is the parsed `task_data["due_at"]`; `now` is the value
of `datetime.utcnow()` made explicit. -/
def calculate_next_due (current_due : Option DateTime) (pattern : String)
    (now : DateTime) : DateTime :=
  let base_date := current_due.getD now
  if pattern = "daily" then addDays base_date 1
  else if pattern = "weekly" then addDays base_date 7
  else if pattern = "monthly" then addOneMonth base_date
  else addDays base_date 1

/-- A Python `datetime` value inside the recurring-task service: a
civil value plus whether it is timezone-aware.
`datetime.fromisoformat(s.replace("Z", "+00:00"))` yields an aware
value when `s` carried a `Z` or a numeric offset (the backend
serializes its datetimes with one), and a naive one otherwise;
`datetime.utcnow()` is naive.  `timedelta` and `relativedelta`
arithmetic preserve `tzinfo`. -/
structure PyDateTime where
  civil : DateTime
  aware : Bool
deriving DecidableEq, Repr

/-- `calculate_next_due` on the parsed (awareness-carrying) datetimes:
the civil arithmetic is `calculate_next_due`, and since `timedelta` and
`relativedelta` keep `tzinfo`, the result is aware exactly when the
parsed `current_due` was aware (the `utcnow()` fallback is naive). -/
def calculate_next_due_py (current_due : Option PyDateTime)
    (pattern : String) (now : DateTime) : PyDateTime :=
  { civil :=
      calculate_next_due (current_due.map (fun p => p.civil)) pattern now
    aware := (current_due.map (fun p => p.aware)).getD false }

/-- Two-digit zero padding used by `datetime.isoformat`. -/
def pad2 (n : Nat) : String :=
  if n < 10 then "0" ++ toString n else toString n

/-- `datetime.isoformat()` (microseconds zero): the civil rendering,
with the `+00:00` offset suffix exactly when the value is aware. -/
def isoformat (p : PyDateTime) : String :=
  toString p.civil.year ++ "-" ++ pad2 p.civil.month ++ "-" ++
    pad2 p.civil.day ++ "T" ++ pad2 (p.civil.sec / 3600) ++ ":" ++
    pad2 (p.civil.sec % 3600 / 60) ++ ":" ++ pad2 (p.civil.sec % 60) ++
    (if p.aware then "+00:00" else "")

/-- The task snapshot dict carried in a consumed event (`task_data`),
with every `.get` access modelled as optional.  `due_at` and
`remind_at` are ISO strings in the wire dict; they are modelled here in
their parsed form (`PyDateTime`), which records whether the string
carried an offset. -/
structure TaskSnapshot where
  task_id : Option Nat := none
  user_id : Option String := none
  title : Option String := none
  description : Option String := none
  priority : Option String := none
  tags : Option (List String) := none
  recurrence_pattern : Option String := none
  due_at : Option PyDateTime := none
  remind_at : Option PyDateTime := none
deriving DecidableEq, Repr

/-- The `new_task` dict that `create_next_occurrence` POSTs to the
backend's create path.  `due_at` and `remind_at` are the literal
strings placed in the JSON body. -/
structure NewTaskRequest where
  title : Option String
  description : Option String
  priority : String
  tags : List String
  recurrence_pattern : Option String
  due_at : String
  remind_at : Option String
deriving DecidableEq, Repr

/-- `create_next_occurrence` from
`recurring-task-service/src/handlers.py` (the payload it builds; the
HTTP POST itself is the external create path).  NOTE the source
serializes both timestamps as `isoformat() + "Z"`, so an aware value
yields `...+00:00Z`.  The due/remind offset is datetime subtraction;
`new_remind = next_due - offset` keeps `next_due`'s tzinfo.  (Python
raises a TypeError when subtracting a naive from an aware datetime;
that mixed case is outside the scenario modelled here, where due and
remind come from the same serializer.) -/
def create_next_occurrence (td : TaskSnapshot) (next_due : PyDateTime) :
    NewTaskRequest :=
  let base : NewTaskRequest :=
    { title := td.title, description := td.description,
      priority := td.priority.getD "Medium", tags := td.tags.getD [],
      recurrence_pattern := td.recurrence_pattern,
      due_at := isoformat next_due ++ "Z",
      remind_at := none }
  match td.due_at, td.remind_at with
  | some due, some remind =>
    let new_remind : PyDateTime :=
      { civil :=
          dtOfSecI (dtToSecI next_due.civil -
            (dtToSecI due.civil - dtToSecI remind.civil))
        aware := next_due.aware }
    { base with remind_at := some (isoformat new_remind ++ "Z") }
  | _, _ => base

/-- A message on the `task-events` topic as seen by the recurring-task
service (envelope unwrapping of `event.get("data", event)` applied). -/
structure TaskEventMsg where
  type : String
  task_id : Option Nat := none
  task_data : Option TaskSnapshot := none
deriving DecidableEq, Repr

/-- `handle_task_event`: returns the create request issued, or `none`
when the event is skipped.  Python's `if not recurrence_pattern:`
treats an empty string as falsy. -/
def handle_task_event (ev : TaskEventMsg) (now : DateTime) :
    Option NewTaskRequest :=
  match ev.task_data with
  | none => none
  | some td =>
    match td.recurrence_pattern with
    | none => none
    | some rp =>
      if rp.isEmpty then none
      else
        let next_due := calculate_next_due_py td.due_at rp now
        some (create_next_occurrence td next_due)

/-- `receive_task_event` from `recurring-task-service/src/main.py`:
only `task.completed` events reach `handle_task_event`. -/
def receive_task_event (ev : TaskEventMsg) (now : DateTime) :
    Option NewTaskRequest :=
  if ev.type = "task.completed" then handle_task_event ev now else none

/-! ## WebSocket service (`websocket-service/src/handlers.py`) -/

/-- A WebSocket handle. -/
abbrev Conn := Nat

/-- `ConnectionManager.active_connections`: user id to that user's set
of connections (Python dict/set modelled as ordered lists with unique
keys). -/
abbrev Registry := List (String × List Conn)

/-- `ConnectionManager.get_user_connections`:
`active_connections.get(user_id, set())`. -/
def get_user_connections (uid : String) (reg : Registry) : List Conn :=
  match reg.find? (fun e => e.1 = uid) with
  | some e => e.2
  | none => []

/-- `ConnectionManager.disconnect`: discard the connection from the
user's set and delete the user's entry once empty. -/
def disconnect (ws : Conn) (uid : String) (reg : Registry) : Registry :=
  let reg1 := reg.map fun e =>
    if e.1 = uid then (e.1, e.2.filter (fun c => decide (c ≠ ws))) else e
  reg1.filter fun e => !(e.1 == uid && e.2.isEmpty)

/-- `ConnectionManager.send_to_user`.  `sendOk c = false` models
`websocket.send_json` raising for connection `c` (the exception is
caught in the loop).  Returns the registry after the post-iteration
cleanup and the list of (connection, message) deliveries that
succeeded. -/
def send_to_user (uid : String) (msg : String) (sendOk : Conn → Bool)
    (reg : Registry) : Registry × List (Conn × String) :=
  let connections := get_user_connections uid reg
  if connections.isEmpty then (reg, [])
  else
    let disconnected := connections.filter (fun c => !(sendOk c))
    let delivered :=
      (connections.filter (fun c => sendOk c)).map (fun c => (c, msg))
    (disconnected.foldl (fun r ws => disconnect ws uid r) reg, delivered)

/-! ## Shared predicates, helper lemmas and concrete fixtures -/

/-- Success of a fallible service operation (no `RuntimeError`). -/
def exceptIsOk {α : Type} : Except String α → Bool
  | .ok _ => true
  | .error _ => false

/-- The data-model invariant: `completed_at` is non-null iff
`status = completed`. -/
def completed_inv (t : Task) : Prop :=
  t.completed_at ≠ none ↔ t.status = .completed

instance (t : Task) : Decidable (completed_inv t) := by
  unfold completed_inv; infer_instance

/-- A publish oracle on which nothing may depend. -/
def pubTrue : String → Bool := fun _ => true

/-- Result task of a fallible mutating operation, when any. -/
def updatedOf {α : Type} : Except String (Option α) → Option α
  | .ok o => o
  | .error _ => none

/-- The completed-at invariant, lifted to an optional result. -/
def invHolds (o : Option Task) : Prop :=
  match o with
  | some u => completed_inv u
  | none => True

instance (o : Option Task) : Decidable (invHolds o) := by
  unfold invHolds
  cases o <;> infer_instance

/-- A concrete pending task of user u1, used as a fixture. -/
def exTask : Task :=
  { id := 1
    user_id := "u1"
    title := "Buy milk"
    description := none
    status := .pending
    priority := .medium
    tags := ["home"]
    due_at := none
    remind_at := none
    recurrence_pattern := none
    created_at := 0
    updated_at := 0
    completed_at := none }

/-- A concrete completed task of a different user u2. -/
def exTaskOther : Task :=
  { exTask with
    id := 2
    user_id := "u2"
    title := "Other"
    status := .completed
    priority := .high
    completed_at := some 1 }

/-- A store holding one task of u1 and one of u2. -/
def storeLeak : Store := [("task:u1:1", exTask), ("task:u2:2", exTaskOther)]

/-- Filter parameters selecting pending tasks only. -/
def pendingFilter : TaskFilterParams := { status := some .pending }

/-- The u1 fixture with a description set. -/
def milkTask : Task := { exTask with description := some "Milk" }

/-- A store holding only `milkTask`. -/
def milkStore : Store := [("task:u1:1", milkTask)]

/-- A store holding only the completed u2 task. -/
def completedStore : Store := [("task:u2:2", exTaskOther)]

/-- An update request whose description is an explicit null. -/
def nullDescriptionReq : TaskUpdateRequest := { description := some none }

/-- An update request setting only the status to completed. -/
def statusCompletedReq : TaskUpdateRequest :=
  { status := some (some .completed) }

/-- An update request mixing an absent field, an explicit null and a
set value. -/
def mixedReq : TaskUpdateRequest :=
  { title := some (some "New"), description := some none,
    priority := some (some .low) }

/-- A registry with two connections for u1 and one for u2. -/
def regW : Registry := [("u1", [10, 11]), ("u2", [20])]

/-- A send outcome where only connection 11 is healthy. -/
def sendOkW : Conn → Bool := fun c => c == 11

/-- Snapshot of a weekly recurring task due 2026-02-10T17:00:00Z (the
`Z`-suffixed wire string parses to an aware datetime). -/
def weeklySnapshot : TaskSnapshot :=
  { title := some "T"
    priority := some "High"
    tags := some ["a"]
    recurrence_pattern := some "weekly"
    due_at := some ⟨⟨2026, 2, 10, 61200⟩, true⟩ }

/-- A completed event carrying `weeklySnapshot`. -/
def weeklyEvent : TaskEventMsg :=
  { type := "task.completed", task_data := some weeklySnapshot }

/-- `_store[key] = value` always reports success. -/
theorem save_state_snd (key : String) (v : Task) :
    ∀ store : Store, (save_state key v store).2 = true := by
  intro store
  induction store with
  | nil => rfl
  | cons kv rest ih =>
    rw [save_state]
    split
    · rfl
    · simpa using ih

/-- `_store.pop(key, None)` always reports success. -/
theorem delete_state_snd (key : String) (store : Store) :
    (delete_state key store).2 = true := rfl

theorem applySet_skip {α : Type} (f : Option (Option α)) (old : α)
    (h : f = none ∨ f = some none) : applySet f old = old := by
  rcases h with h | h <;> subst h <;> rfl

/-- Every month has at least one day. -/
theorem daysInMonth_pos (y m : Nat) : 1 ≤ daysInMonth y m := by
  unfold daysInMonth
  split
  · split <;> omega
  · split <;> omega

/-- The calendar successor of a valid datetime is valid. -/
theorem nextDay_valid {d : DateTime} (h : ValidDT d) : ValidDT (nextDay d) := by
  obtain ⟨h1, h2, h3, h4, h5⟩ := h
  have hp1 := daysInMonth_pos d.year (d.month + 1)
  have hp2 := daysInMonth_pos (d.year + 1) 1
  unfold nextDay
  split_ifs with hc1 hc2
  · exact ⟨h1, h2, by show 1 ≤ d.day + 1; omega,
      by show d.day + 1 ≤ daysInMonth d.year d.month; omega, h5⟩
  · exact ⟨by show 1 ≤ d.month + 1; omega, by show d.month + 1 ≤ 12; omega,
      le_refl 1, by show 1 ≤ daysInMonth d.year (d.month + 1); omega, h5⟩
  · exact ⟨le_refl 1, by show (1 : Nat) ≤ 12; omega, le_refl 1,
      by show 1 ≤ daysInMonth (d.year + 1) 1; omega, h5⟩

/-- `timedelta(days=n)` preserves validity. -/
theorem addDays_valid {d : DateTime} (n : Nat) (h : ValidDT d) :
    ValidDT (addDays d n) := by
  induction n generalizing d with
  | zero => exact h
  | succ k ih => exact ih (nextDay_valid h)

/-- `relativedelta(months=1)` preserves validity (day clamped). -/
theorem addOneMonth_valid {d : DateTime} (h : ValidDT d) :
    ValidDT (addOneMonth d) := by
  obtain ⟨h1, h2, h3, h4, h5⟩ := h
  have hp1 := daysInMonth_pos d.year (d.month + 1)
  have hp2 := daysInMonth_pos (d.year + 1) 1
  unfold addOneMonth
  split_ifs with hc1
  · exact ⟨by show 1 ≤ d.month + 1; omega, by show d.month + 1 ≤ 12; omega,
      by show 1 ≤ min d.day (daysInMonth d.year (d.month + 1)); omega,
      by show min d.day (daysInMonth d.year (d.month + 1)) ≤
        daysInMonth d.year (d.month + 1); omega, h5⟩
  · exact ⟨le_refl 1, by show (1 : Nat) ≤ 12; omega,
      by show 1 ≤ min d.day (daysInMonth (d.year + 1) 1); omega,
      by show min d.day (daysInMonth (d.year + 1) 1) ≤
        daysInMonth (d.year + 1) 1; omega, h5⟩

/-- Effect of `ConnectionManager.disconnect` on the user's connection
set, as seen through `get_user_connections`: the connection is removed,
and the user's entry survives when the remaining set is non-empty. -/
theorem get_user_connections_disconnect (ws : Conn) (uid : String)
    (reg : Registry) (l : List Conn)
    (hget : get_user_connections uid reg = l)
    (hne : l.filter (fun c => decide (c ≠ ws)) ≠ []) :
    get_user_connections uid (disconnect ws uid reg) =
      l.filter (fun c => decide (c ≠ ws)) := by
  induction reg with
  | nil =>
    exfalso
    apply hne
    rw [← hget]
    rfl
  | cons e rest ih =>
    by_cases he : e.1 = uid
    · have hl : e.2 = l := by
        unfold get_user_connections at hget
        rw [List.find?_cons_of_pos] at hget
        · simpa using hget
        · simpa using he
      unfold disconnect
      simp only [List.map_cons, if_pos he]
      rw [List.filter_cons]
      have hkeep : (!(e.1 == uid && (e.2.filter (fun c => decide (c ≠ ws))).isEmpty)) = true := by
        simp only [he, beq_self_eq_true, Bool.true_and, Bool.not_eq_true']
        rw [hl]
        simpa [List.isEmpty_iff] using hne
      rw [if_pos hkeep]
      unfold get_user_connections
      rw [List.find?_cons_of_pos]
      · simpa using congrArg (fun t => t.filter (fun c => decide (c ≠ ws))) hl
      · simpa using he
    · have hget' : get_user_connections uid rest = l := by
        unfold get_user_connections at hget ⊢
        rw [List.find?_cons_of_neg] at hget
        · exact hget
        · simpa using he
      have hrec := ih hget'
      unfold disconnect at hrec ⊢
      simp only [List.map_cons, if_neg he]
      rw [List.filter_cons]
      have hkeep : (!(e.1 == uid && e.2.isEmpty)) = true := by
        simp [he]
      rw [if_pos hkeep]
      unfold get_user_connections at hrec ⊢
      rw [List.find?_cons_of_neg]
      · exact hrec
      · simpa using he

/-! ## Claim theorems -/

/-- C10: against the in-memory store, `save_state` and `delete_state`
always return True, so the RuntimeError-raising failure branches in
`create_task`, `update_task`, `delete_task` and `complete_task` are
unreachable: for every input, these operations never raise an
infrastructure failure. -/
theorem c10_runtime_error_branches_unreachable (uid : String)
    (creq : TaskCreateRequest) (ureq : TaskUpdateRequest) (tid : Nat)
    (now : Timestamp) (store : Store) (pub : String → Bool) :
    exceptIsOk (create_task uid creq tid now store pub).1 = true ∧
    exceptIsOk (update_task uid tid ureq now store pub).1 = true ∧
    exceptIsOk (delete_task uid tid now store pub).1 = true ∧
    exceptIsOk (complete_task uid tid now store pub).1 = true := by
  refine ⟨?_, ?_, ?_, ?_⟩
  · simp [create_task, save_state_snd, exceptIsOk]
  · cases hget : get_task uid tid store with
    | none => simp [update_task, hget, exceptIsOk]
    | some t => simp [update_task, hget, save_state_snd, exceptIsOk]
  · cases hget : get_task uid tid store with
    | none => simp [delete_task, hget, exceptIsOk]
    | some t => simp [delete_task, hget, delete_state, exceptIsOk]
  · cases hget : get_task uid tid store with
    | none => simp [complete_task, hget, exceptIsOk]
    | some t => simp [complete_task, hget, save_state_snd, exceptIsOk]

/-- C8: `update_task` with an empty partial-update object (no fields
set) leaves every field of the found task unchanged except
`updated_at`, which is set to the current time. -/
theorem c8_empty_update_only_bumps_updated_at (uid : String) (tid : Nat)
    (now : Timestamp) (store : Store) (pub : String → Bool) (task : Task)
    (hget : get_task uid tid store = some task) :
    (update_task uid tid {} now store pub).1 =
      .ok (some { task with updated_at := now }) := by
  simp [update_task, hget, save_state_snd]
  exact ⟨rfl, rfl, rfl, rfl, rfl, rfl, rfl, rfl, rfl, rfl, rfl, rfl⟩

/-- C8 witness: the empty update on the concrete store bumps only
`updated_at`. -/
theorem c8_empty_update_witness :
    (update_task "u1" 1 {} 5 milkStore pubTrue).1 =
      .ok (some { milkTask with updated_at := 5 }) :=
  c8_empty_update_only_bumps_updated_at "u1" 1 5 milkStore pubTrue milkTask
    (by decide)

/-- C7 counterexample: the claim says re-completing does not change the
value of `completed_at`, but on a task stored with
`completed_at = some 1`, `complete_task` at time 200 overwrites it to
`some 200`. -/
theorem c7_counterexample_recomplete_changes_completed_at :
    (get_task "u2" 2 completedStore).map (fun t => t.completed_at) =
      some (some 1) ∧
    (updatedOf (complete_task "u2" 2 200 completedStore pubTrue).1).map
        (fun t => t.completed_at) = some (some 200) := by
  decide

/-- C7 amended: `complete_task` on an already-completed task leaves the
status completed but blindly re-applies completion, overwriting
`completed_at` (and `updated_at`) with the current time. -/
theorem c7_recomplete_blindly_reapplies (uid : String) (tid : Nat)
    (now : Timestamp) (store : Store) (pub : String → Bool) (task : Task)
    (hget : get_task uid tid store = some task)
    (_hc : task.status = .completed) :
    updatedOf (complete_task uid tid now store pub).1 =
      some { task with status := .completed, completed_at := some now,
                        updated_at := now } := by
  simp [complete_task, hget, save_state_snd, updatedOf, mark_completed]

/-- C7 witness: re-completion of the concrete completed task. -/
theorem c7_recomplete_witness :
    updatedOf (complete_task "u2" 2 200 completedStore pubTrue).1 =
      some { exTaskOther with status := .completed,
                              completed_at := some 200,
                              updated_at := 200 } :=
  c7_recomplete_blindly_reapplies "u2" 2 200 completedStore pubTrue
    exTaskOther (by decide) (by decide)

/-- C2 counterexample: the claim says a field explicitly set to null is
cleared, but `update_task` skips null values (`if value is not None`),
so an explicit-null description leaves the stored value in place. -/
theorem c2_counterexample_explicit_null_not_cleared :
    milkTask.description = some "Milk" ∧
    (updatedOf (update_task "u1" 1 nullDescriptionReq 5 milkStore
        pubTrue).1).map (fun t => t.description) = some (some "Milk") := by
  decide

/-- C2 amended: `update_task` applies exactly the fields explicitly
present with a non-null value; a field absent from the request is left
unchanged, and a field explicitly set to null is also left unchanged
(ignored, not cleared); `id`, `user_id`, `created_at` and
`completed_at` are never touched and `updated_at` is set to now. -/
theorem c2_update_applies_only_present_nonnull_fields (uid : String)
    (tid : Nat) (req : TaskUpdateRequest) (now : Timestamp) (store : Store)
    (pub : String → Bool) (task : Task)
    (hget : get_task uid tid store = some task) :
    updatedOf (update_task uid tid req now store pub).1 =
      some { task with
        title := (match req.title with
                  | some (some v) => v
                  | _ => task.title),
        description := (match req.description with
                        | some (some v) => some v
                        | _ => task.description),
        priority := (match req.priority with
                     | some (some v) => v
                     | _ => task.priority),
        tags := (match req.tags with
                 | some (some v) => v
                 | _ => task.tags),
        due_at := (match req.due_at with
                   | some (some v) => some v
                   | _ => task.due_at),
        remind_at := (match req.remind_at with
                      | some (some v) => some v
                      | _ => task.remind_at),
        recurrence_pattern := (match req.recurrence_pattern with
                               | some (some v) => some v
                               | _ => task.recurrence_pattern),
        status := (match req.status with
                   | some (some v) => v
                   | _ => task.status),
        updated_at := now } := by
  simp [update_task, hget, save_state_snd, updatedOf, applyUpdate]
  refine ⟨?_, ?_, ?_, ?_, ?_, ?_, ?_, ?_⟩
  · rcases req.title with _ | (_ | v) <;> rfl
  · rcases req.description with _ | (_ | v) <;> rfl
  · rcases req.status with _ | (_ | v) <;> rfl
  · rcases req.priority with _ | (_ | v) <;> rfl
  · rcases req.tags with _ | (_ | v) <;> rfl
  · rcases req.due_at with _ | (_ | v) <;> rfl
  · rcases req.remind_at with _ | (_ | v) <;> rfl
  · rcases req.recurrence_pattern with _ | (_ | v) <;> rfl

/-- C2 witness: a request with `title` set, `description` an explicit
null and every other field absent changes only the title (besides
`updated_at`). -/
theorem c2_update_witness :
    updatedOf (update_task "u1" 1 mixedReq 5 milkStore pubTrue).1 =
      some { milkTask with title := "New", priority := .low,
                           updated_at := 5 } :=
  c2_update_applies_only_present_nonnull_fields "u1" 1 mixedReq 5 milkStore
    pubTrue milkTask (by decide)

/-- C3 counterexample: the claim says every operation preserves the
invariant `completed_at non-null iff status = completed`, but
`update_task` with a status field blindly sets the status: updating a
pending task (which satisfies the invariant) to `status = completed`
yields a stored task with `status = completed` and
`completed_at = none`. -/
theorem c3_counterexample_status_update_breaks_inv :
    completed_inv milkTask ∧
    (updatedOf (update_task "u1" 1 statusCompletedReq 5 milkStore
        pubTrue).1).map (fun t => (t.status, t.completed_at)) =
      some (.completed, none) := by
  decide

/-- C3 amended: the invariant `completed_at non-null iff
status = completed` is preserved by create, complete, add_tags and
remove_tags starting from any task satisfying it, and by update_task
whenever the request does not carry a non-null status field; an update
request that sets status can break it. -/
theorem c3_completed_inv_preserved_except_status_updates (uid : String)
    (creq : TaskCreateRequest) (ureq : TaskUpdateRequest)
    (tagsArg : List String) (tid : Nat) (now : Timestamp) (store : Store)
    (pub : String → Bool) (task : Task)
    (hget : get_task uid tid store = some task)
    (hinv : completed_inv task)
    (hs : ureq.status = none ∨ ureq.status = some none) :
    completed_inv (mkTask uid creq tid now) ∧
    invHolds (updatedOf (complete_task uid tid now store pub).1) ∧
    invHolds (add_tags uid tid tagsArg now store pub).1 ∧
    invHolds (remove_tags uid tid tagsArg now store pub).1 ∧
    invHolds (updatedOf (update_task uid tid ureq now store pub).1) := by
  refine ⟨?_, ?_, ?_, ?_, ?_⟩
  · simp [completed_inv, mkTask]
  · simp only [complete_task, hget]
    rw [save_state_snd]
    simp [invHolds, updatedOf, completed_inv, mark_completed]
  · simp only [add_tags, hget]
    simpa [invHolds, completed_inv] using hinv
  · simp only [remove_tags, hget]
    simpa [invHolds, completed_inv] using hinv
  · simp only [update_task, hget]
    rw [save_state_snd]
    have hstat : applySet ureq.status task.status = task.status :=
      applySet_skip _ _ hs
    simp only [invHolds, updatedOf, completed_inv, applyUpdate]
    simpa [hstat] using hinv

/-- C3 witness: the preservation theorem applied to a concrete store,
create request, tag list and a status-free update request. -/
theorem c3_completed_inv_witness :
    completed_inv (mkTask "u1" { title := "X" } 9 7) ∧
    invHolds (updatedOf (complete_task "u1" 1 7 milkStore pubTrue).1) ∧
    invHolds (add_tags "u1" 1 ["x"] 7 milkStore pubTrue).1 ∧
    invHolds (remove_tags "u1" 1 ["home"] 7 milkStore pubTrue).1 ∧
    invHolds (updatedOf (update_task "u1" 1 mixedReq 7 milkStore
      pubTrue).1) :=
  c3_completed_inv_preserved_except_status_updates "u1" { title := "X" }
    mixedReq ["x"] 1 7 milkStore pubTrue milkTask (by decide) (by decide)
    (Or.inl rfl)

/-- C6: every mutating operation (create, update, complete, delete,
add_tags, remove_tags) performs exactly two publish attempts, to
task-events then task-updates, its effect trace starts with the store
write, and the whole outcome (result, store and trace) is independent
of the publish results, so a publish failure neither fails the
operation nor rolls back the store write. -/
theorem c6_exactly_two_publish_attempts_after_write (uid : String)
    (creq : TaskCreateRequest) (ureq : TaskUpdateRequest)
    (tagsArg : List String) (tid : Nat) (now : Timestamp) (store : Store)
    (pub pub' : String → Bool) (task : Task)
    (hget : get_task uid tid store = some task) :
    (publishesOf (create_task uid creq tid now store pub).2.2 =
        [TOPIC_TASK_EVENTS, TOPIC_TASK_UPDATES] ∧
      (create_task uid creq tid now store pub).2.2.head? =
        some (.save ("task:" ++ uid ++ ":" ++ toString tid)) ∧
      create_task uid creq tid now store pub =
        create_task uid creq tid now store pub') ∧
    (publishesOf (update_task uid tid ureq now store pub).2.2 =
        [TOPIC_TASK_EVENTS, TOPIC_TASK_UPDATES] ∧
      (update_task uid tid ureq now store pub).2.2.head? =
        some (.save (get_state_key task)) ∧
      update_task uid tid ureq now store pub =
        update_task uid tid ureq now store pub') ∧
    (publishesOf (complete_task uid tid now store pub).2.2 =
        [TOPIC_TASK_EVENTS, TOPIC_TASK_UPDATES] ∧
      (complete_task uid tid now store pub).2.2.head? =
        some (.save (get_state_key task)) ∧
      complete_task uid tid now store pub =
        complete_task uid tid now store pub') ∧
    (publishesOf (delete_task uid tid now store pub).2.2 =
        [TOPIC_TASK_EVENTS, TOPIC_TASK_UPDATES] ∧
      (delete_task uid tid now store pub).2.2.head? =
        some (.deleteKey ("task:" ++ uid ++ ":" ++ toString tid)) ∧
      delete_task uid tid now store pub =
        delete_task uid tid now store pub') ∧
    (publishesOf (add_tags uid tid tagsArg now store pub).2.2 =
        [TOPIC_TASK_EVENTS, TOPIC_TASK_UPDATES] ∧
      (add_tags uid tid tagsArg now store pub).2.2.head? =
        some (.save (get_state_key task)) ∧
      add_tags uid tid tagsArg now store pub =
        add_tags uid tid tagsArg now store pub') ∧
    (publishesOf (remove_tags uid tid tagsArg now store pub).2.2 =
        [TOPIC_TASK_EVENTS, TOPIC_TASK_UPDATES] ∧
      (remove_tags uid tid tagsArg now store pub).2.2.head? =
        some (.save (get_state_key task)) ∧
      remove_tags uid tid tagsArg now store pub =
        remove_tags uid tid tagsArg now store pub') := by
  refine ⟨⟨?_, ?_, rfl⟩, ⟨?_, ?_, rfl⟩, ⟨?_, ?_, rfl⟩, ⟨?_, ?_, rfl⟩,
    ⟨?_, ?_, rfl⟩, ⟨?_, ?_, rfl⟩⟩
  · simp only [create_task]
    rw [save_state_snd]
    simp only [Bool.true_eq_false, if_false]
    split <;> rfl
  · simp only [create_task]
    rw [save_state_snd]
    simp only [Bool.true_eq_false, if_false]
    split <;> rfl
  · simp only [update_task, hget]
    rw [save_state_snd]
    simp only [Bool.true_eq_false, if_false]
    split
    · split <;> rfl
    · rfl
  · simp only [update_task, hget]
    rw [save_state_snd]
    simp only [Bool.true_eq_false, if_false]
    split
    · split <;> rfl
    · rfl
  · simp only [complete_task, hget]
    rw [save_state_snd]
    simp only [Bool.true_eq_false, if_false]
    rfl
  · simp only [complete_task, hget]
    rw [save_state_snd]
    simp only [Bool.true_eq_false, if_false]
    rfl
  · simp only [delete_task, hget]
    rfl
  · simp only [delete_task, hget]
    rfl
  · simp only [add_tags, hget]
    rfl
  · simp only [add_tags, hget]
    rfl
  · simp only [remove_tags, hget]
    rfl
  · simp only [remove_tags, hget]
    rfl

/-- C6 witness: the two-publish contract applied at a concrete store
and requests. -/
theorem c6_two_publish_witness :
    publishesOf (create_task "u1" { title := "X" } 9 7 milkStore
        pubTrue).2.2 = [TOPIC_TASK_EVENTS, TOPIC_TASK_UPDATES] ∧
    publishesOf (update_task "u1" 1 mixedReq 7 milkStore pubTrue).2.2 =
      [TOPIC_TASK_EVENTS, TOPIC_TASK_UPDATES] ∧
    publishesOf (delete_task "u1" 1 7 milkStore pubTrue).2.2 =
      [TOPIC_TASK_EVENTS, TOPIC_TASK_UPDATES] :=
  ⟨(c6_exactly_two_publish_attempts_after_write "u1" { title := "X" }
      mixedReq [] 1 7 milkStore pubTrue pubTrue milkTask (by decide)).1.1,
    (c6_exactly_two_publish_attempts_after_write "u1" { title := "X" }
      mixedReq [] 1 7 milkStore pubTrue pubTrue milkTask (by decide)).2.1.1,
    (c6_exactly_two_publish_attempts_after_write "u1" { title := "X" }
      mixedReq [] 1 7 milkStore pubTrue pubTrue milkTask
      (by decide)).2.2.2.1.1⟩

/-- C5: `calculate_next_due` maps daily to base + 1 day, weekly to
base + 7 days, monthly to the calendar-aware same day of the next
month with day-of-month overflow clamped to a valid date, and any
unknown pattern to base + 1 day, where base is `current_due` when
present and now otherwise; applied to a valid datetime it yields a
valid datetime (a Jan 31 base gives a valid February date without
crashing), and it is a pure function of its inputs. -/
theorem c5_calculate_next_due_spec (cur : Option DateTime) (pat : String)
    (now : DateTime) (hvalid : ValidDT (cur.getD now)) :
    ValidDT (calculate_next_due cur pat now) ∧
    calculate_next_due cur "daily" now = addDays (cur.getD now) 1 ∧
    calculate_next_due cur "weekly" now = addDays (cur.getD now) 7 ∧
    calculate_next_due cur "monthly" now = addOneMonth (cur.getD now) ∧
    (pat ≠ "daily" → pat ≠ "weekly" → pat ≠ "monthly" →
      calculate_next_due cur pat now = addDays (cur.getD now) 1) ∧
    (calculate_next_due cur "monthly" now).day =
      min (cur.getD now).day
        (daysInMonth (addOneMonth (cur.getD now)).year
          (addOneMonth (cur.getD now)).month) ∧
    calculate_next_due none "monthly" ⟨2026, 1, 31, 0⟩ = ⟨2026, 2, 28, 0⟩ ∧
    calculate_next_due (some ⟨2026, 1, 31, 0⟩) "daily" ⟨2026, 1, 1, 0⟩ =
      ⟨2026, 2, 1, 0⟩ := by
  refine ⟨?_, ?_, ?_, ?_, ?_, ?_, by decide, by decide⟩
  · unfold calculate_next_due
    split_ifs
    · exact addDays_valid 1 hvalid
    · exact addDays_valid 7 hvalid
    · exact addOneMonth_valid hvalid
    · exact addDays_valid 1 hvalid
  · simp [calculate_next_due]
  · simp [calculate_next_due]
  · simp [calculate_next_due]
  · intro h1 h2 h3
    simp [calculate_next_due, h1, h2, h3]
  · show (addOneMonth (cur.getD now)).day = _
    unfold addOneMonth
    split_ifs <;> rfl

/-- C5 witness: the spec theorem applied with an unknown pattern and a
Jan 31 base (the overflow edge case). -/
theorem c5_calculate_next_due_witness :
    ValidDT (calculate_next_due none "yearly" ⟨2026, 1, 31, 0⟩) ∧
    calculate_next_due none "yearly" ⟨2026, 1, 31, 0⟩ =
      addDays ⟨2026, 1, 31, 0⟩ 1 ∧
    calculate_next_due none "monthly" ⟨2026, 1, 31, 0⟩ =
      ⟨2026, 2, 28, 0⟩ :=
  ⟨(c5_calculate_next_due_spec none "yearly" ⟨2026, 1, 31, 0⟩
      (by decide)).1,
    (c5_calculate_next_due_spec none "yearly" ⟨2026, 1, 31, 0⟩
      (by decide)).2.2.2.2.1 (by decide) (by decide) (by decide),
    (c5_calculate_next_due_spec none "yearly" ⟨2026, 1, 31, 0⟩
      (by decide)).2.2.2.2.2.2.1⟩

/-- C4: the claim expects the consumer of a completed weekly event due
2026-02-10T17:00:00Z to create a new task with due_at
2026-02-17T17:00:00Z and the same title/tags/priority.  The consumer
does copy title/tags/priority/recurrence_pattern and computes the
correct civil next due instant (aware, since the wire string carried an
offset), but it serializes the payload timestamp as
`isoformat() + "Z"`, which for the aware value yields the malformed
string `2026-02-17T17:00:00+00:00Z` (two UTC designators) in the
POSTed due_at; the backend's TaskCreateRequest datetime validation
rejects it, `raise_for_status` raises, and no new task is created.  The
last conjunct shows the well-formed rendering the naive path would
produce. -/
theorem c4_malformed_due_at_serialization :
    (receive_task_event weeklyEvent ⟨2026, 1, 1, 0⟩).map
        (fun r => r.due_at) = some "2026-02-17T17:00:00+00:00Z" ∧
    (receive_task_event weeklyEvent ⟨2026, 1, 1, 0⟩).map
        (fun r => (r.title, r.tags, r.priority, r.recurrence_pattern)) =
      some (some "T", ["a"], "High", some "weekly") ∧
    calculate_next_due_py weeklySnapshot.due_at "weekly" ⟨2026, 1, 1, 0⟩ =
      ⟨⟨2026, 2, 17, 61200⟩, true⟩ ∧
    isoformat ⟨⟨2026, 2, 17, 61200⟩, true⟩ = "2026-02-17T17:00:00+00:00" ∧
    isoformat ⟨⟨2026, 2, 17, 61200⟩, false⟩ ++ "Z" =
      "2026-02-17T17:00:00Z" := by
  decide

/-- C1: the claim says every task returned by `list_tasks` belongs to
the requesting owner and satisfies any status/priority filter; but the
in-memory `query_state` ignores the query filter that `list_tasks`
builds, so on a store holding tasks of two users, listing for u1
returns u2's task, and a pending-status filter still returns a
completed task. -/
theorem c1_list_tasks_leaks_foreign_and_unfiltered_tasks :
    (build_query_filter "u1" pendingFilter).andClauses =
      [.eqUser "u1", .eqStatus .pending] ∧
    query_state (build_query_filter "u1" pendingFilter) [] none storeLeak =
      storeLeak ∧
    (list_tasks "u1" none storeLeak).1.filter
      (fun t => decide (t.user_id ≠ "u1")) = [exTaskOther] ∧
    (list_tasks "u1" (some pendingFilter) storeLeak).1.filter
      (fun t => decide (t.status ≠ .pending)) = [exTaskOther] := by
  decide

/-- C9: `send_to_user` on a user with zero registered connections is a
no-op returning normally, and on a user with one failing and one
healthy connection it delivers the message to the healthy connection
only and removes the failing connection from the registry after
iteration, propagating no error. -/
theorem c9_send_to_user_fanout (uid0 uid2 : String) (msg : String)
    (sendOk : Conn → Bool) (reg : Registry) (c1 c2 : Conn)
    (h0 : get_user_connections uid0 reg = [])
    (h2 : get_user_connections uid2 reg = [c1, c2])
    (hfail : sendOk c1 = false) (hok : sendOk c2 = true) :
    send_to_user uid0 msg sendOk reg = (reg, []) ∧
    (send_to_user uid2 msg sendOk reg).2 = [(c2, msg)] ∧
    get_user_connections uid2 (send_to_user uid2 msg sendOk reg).1 =
      [c2] := by
  have hne : c1 ≠ c2 := by
    intro h
    rw [h, hok] at hfail
    exact Bool.noConfusion hfail
  have hfilter : ([c1, c2].filter fun c => decide (c ≠ c1)) = [c2] := by
    simp [List.filter, hne.symm]
  refine ⟨?_, ?_, ?_⟩
  · unfold send_to_user
    rw [h0]
    rfl
  · unfold send_to_user
    rw [h2]
    simp [hfail, hok]
  · unfold send_to_user
    rw [h2]
    simp only [List.isEmpty_cons, if_false, Bool.false_eq_true]
    have hdisc : ([c1, c2].filter fun c => !(sendOk c)) = [c1] := by
      simp [List.filter, hfail, hok]
    rw [hdisc]
    simp only [List.foldl]
    rw [get_user_connections_disconnect c1 uid2 reg [c1, c2] h2
      (by rw [hfilter]; exact List.cons_ne_nil c2 [])]
    exact hfilter

/-- C9 witness: the fan-out contract applied at a concrete registry
with a user with no connections and a user with one failing and one
healthy connection. -/
theorem c9_send_to_user_witness :
    send_to_user "u3" "m" sendOkW regW = (regW, []) ∧
    (send_to_user "u1" "m" sendOkW regW).2 = [(11, "m")] ∧
    get_user_connections "u1" (send_to_user "u1" "m" sendOkW regW).1 =
      [11] :=
  c9_send_to_user_fanout "u3" "u1" "m" sendOkW regW 10 11 (by decide)
    (by decide) (by decide) (by decide)

end Todo
